import Mathlib

/-!
# TermTunes — verification of the CLI's behavior

Shallow embedding of `src/termtunes/cli.py`. External effects are made
explicit: the catalog capability, the player binary and its outcome are
fields of an `Env`; standard input is a list of lines; printed output is
returned as a list of strings (one entry per `print`/prompt).

Python truthiness on strings/options is modelled explicitly (`strOr`,
`truthyOpt`); `str.strip()` is `pyStrip`; `int(...)` is `pyInt` (optional
sign, decimal digits, single underscores between digits).
-/

namespace TermTunes

/-- A track descriptor: the dict `{"title": ..., "artist": ..., "url": ...}`
built by both providers. -/
structure Song where
  title : String
  artist : String
  url : String
deriving DecidableEq, Repr, Inhabited

/-- One entry of an external item's `artists` list: either a dict with an
optional `"name"` key, or a malformed (non-dict) entry. -/
inductive ArtistEntry where
  | obj (name : Option String)
  | malformed
deriving DecidableEq, Repr

/-- An item returned by the external catalog call `ytm.search(query, filter="songs")`:
`item.get("title")`, `item.get("artists")`, `item.get("videoId")`.
`none` models a missing key / `None` value. -/
structure YTItem where
  title : Option String
  artists : Option (List ArtistEntry)
  videoId : Option String
deriving DecidableEq, Repr

/-- Outcome of `subprocess.run(["mpv", "--no-video", url], check=True)`. -/
inductive SubprocOutcome where
  | success
  | calledProcessError (code : Int)
  | keyboardInterrupt
  | otherError (msg : String)

/-- The runtime environment: whether `ytmusicapi` imported, the external
catalog call (which may raise, returning `Except.error msg`, or return a
possibly-`None` list), whether `shutil.which("mpv")` finds the player, and
the outcome of launching mpv on a given url. -/
structure Env where
  ytmusicAvailable : Bool
  catalog : String → Except String (Option (List YTItem))
  mpvFound : Bool
  playOutcome : String → SubprocOutcome

/-- Python `x or d` for an optional string `x`: `None` and `""` are falsy. -/
def strOr (o : Option String) (d : String) : String :=
  match o with
  | none => d
  | some s => if s = "" then d else s

/-- Python truthiness of `args.query` (an optional string). -/
def truthyOpt : Option String → Bool
  | none => false
  | some s => !(s = "")

/-- Python `s.strip()`: drop leading and trailing whitespace. -/
def pyStrip (s : String) : String :=
  ⟨(((s.toList.dropWhile Char.isWhitespace).reverse).dropWhile Char.isWhitespace).reverse⟩

/-- Digit-run parser for Python `int`: accumulates decimal digits, allowing a
single underscore between two digits (as Python `int` does). -/
def digitsCore (acc : Nat) : List Char → Option Nat
  | [] => some acc
  | c :: rest =>
    if c.isDigit then digitsCore (10 * acc + (c.toNat - 48)) rest
    else if c = '_' then
      match rest with
      | [] => none
      | d :: rest2 =>
        if d.isDigit then digitsCore (10 * acc + (d.toNat - 48)) rest2 else none
    else none

/-- Python `int(s)` on an already-stripped string: optional sign followed by
decimal digits (underscores allowed between digits); `none` models
`ValueError`. -/
def pyInt (s : String) : Option Int :=
  match s.toList with
  | [] => none
  | '+' :: rest =>
    match rest with
    | [] => none
    | c :: rest2 =>
      if c.isDigit then (digitsCore (c.toNat - 48) rest2).map (fun n => (n : Int)) else none
  | '-' :: rest =>
    match rest with
    | [] => none
    | c :: rest2 =>
      if c.isDigit then (digitsCore (c.toNat - 48) rest2).map (fun n => -(n : Int)) else none
  | c :: rest =>
    if c.isDigit then (digitsCore (c.toNat - 48) rest).map (fun n => (n : Int)) else none

/-- The artist expression of `search_with_ytmusic`:
`artists[0].get("name") if artists and isinstance(artists[0], dict) and
artists[0].get("name") else "Unknown Artist"`. -/
def firstArtistName (artists : List ArtistEntry) : String :=
  match artists with
  | ArtistEntry.obj (some n) :: _ => if n = "" then "Unknown Artist" else n
  | _ => "Unknown Artist"

/-- Building one song dict from one external item (the body of the `for`
loop in `search_with_ytmusic`): `none` models `continue` on a falsy
`videoId`. -/
def mkSong (item : YTItem) : Option Song :=
  let title := strOr item.title "Unknown Title"
  let artist := firstArtistName (item.artists.getD [])
  match item.videoId with
  | none => none
  | some vid =>
    if vid = "" then none
    else some ⟨title, artist, "https://www.youtube.com/watch?v=" ++ vid⟩

/-- `search_with_ytmusic(query, limit)`: raises if `YTMusic is None`,
otherwise calls the catalog (`or []` on its result), slices to `limit` and
keeps the items with a truthy `videoId`. -/
def search_with_ytmusic (env : Env) (query : String) (limit : Nat) :
    Except String (List Song) :=
  if env.ytmusicAvailable then
    match env.catalog query with
    | Except.error e => Except.error e
    | Except.ok r => Except.ok (((r.getD []).take limit).filterMap mkSong)
  else
    Except.error "ytmusicapi not installed. Run: pip install ytmusicapi"

/-- `search_with_mock(query, limit)`: `limit` synthetic songs, `i` from
`range(limit)` with `i+1` substituted into the templates. -/
def search_with_mock (query : String) (limit : Nat) : List Song :=
  (List.range limit).map fun i =>
    ⟨query ++ " (Mock " ++ toString (i + 1) ++ ")",
     "Mock Artist " ++ toString (i + 1),
     "https://www.youtube.com/watch?v=mock" ++ toString (i + 1)⟩

/-- The prompt printed by each `input(...)` call of the selection loop. -/
def numberPrompt : String := "Enter number (or blank to cancel): "

/-- The `while True` loop of `choose_song`: reads a line (EOF returns
`None`), strips it, returns `None` on blank, parses `int`, accepts iff
`0 <= int(choice)-1 < n`, otherwise prints an error and loops. Returns the
chosen index and the printed lines. -/
def chooseLoop (n : Nat) : List String → Option Nat × List String
  | [] => (none, [numberPrompt])
  | line :: rest =>
    let choice := pyStrip line
    if choice = "" then (none, [numberPrompt])
    else
      match pyInt choice with
      | some v =>
        if 0 ≤ v - 1 ∧ v - 1 < (n : Int) then
          (some (v - 1).toNat, [numberPrompt])
        else
          let r := chooseLoop n rest
          (r.1, numberPrompt :: "Invalid choice. Try again." :: r.2)
      | none =>
        let r := chooseLoop n rest
        (r.1, numberPrompt :: "Please enter a valid number." :: r.2)

/-- The numbered listing `f"{i}. {title} - {artist}"` for `i` from
`enumerate(songs, start=1)`. -/
def listingLines (songs : List Song) : List String :=
  songs.enum.map fun p => toString (p.1 + 1) ++ ". " ++ p.2.title ++ " - " ++ p.2.artist

/-- `choose_song(songs, auto)`: `None` on empty `songs`, index 0 when
`auto`, else prints the menu and runs the input loop. Returns the chosen
index and the printed lines. -/
def choose_song (songs : List Song) (auto : Bool) (lines : List String) :
    Option Nat × List String :=
  if songs.isEmpty then (none, [])
  else if auto then (some 0, [])
  else
    let r := chooseLoop songs.length lines
    (r.1, ("\nSelect a song:" :: listingLines songs) ++ r.2)

/-- `play_with_mpv(url)`: raises when mpv is not found; otherwise runs the
subprocess, printing on non-zero exit or interrupt, and re-raising any
other exception. Returns the printed lines and the raised message, if
any. -/
def play_with_mpv (env : Env) (url : String) : List String × Option String :=
  if env.mpvFound then
    match env.playOutcome url with
    | SubprocOutcome.success => ([], none)
    | SubprocOutcome.calledProcessError c =>
        (["mpv exited with error code " ++ toString c], none)
    | SubprocOutcome.keyboardInterrupt => (["\nStopped by user."], none)
    | SubprocOutcome.otherError m => ([], some m)
  else
    ([], some "mpv not found. Please install it to play songs.")

/-- The search step of `search_and_play`:
`search_with_mock(query, limit) if use_mock else search_with_ytmusic(query, limit)`. -/
def searchStep (env : Env) (query : String) (limit : Nat) (use_mock : Bool) :
    Except String (List Song) :=
  if use_mock then Except.ok (search_with_mock query limit)
  else search_with_ytmusic env query limit

/-- The `"\nTop Results:"` banner plus the numbered listing printed by
`search_and_play`. -/
def resultsHeader (songs : List Song) : List String :=
  "\nTop Results:" :: listingLines songs

/-- The two lines printed for the selected song. -/
def selectedLines (s : Song) : List String :=
  ["\n🎵 Selected: " ++ s.title ++ " - " ++ s.artist, "🔗 URL: " ++ s.url ++ "\n"]

/-- The `try: play_with_mpv(...) except Exception as e: print(f"Failed to
play: {e}")` block: everything the playback phase prints. -/
def playReport (env : Env) (url : String) : List String :=
  let p := play_with_mpv env url
  match p.2 with
  | none => p.1
  | some e => p.1 ++ ["Failed to play: " ++ e]

/-- `search_and_play(query, limit, use_mock, auto, no_play)`: the session
controller. Returns the selected song (the function's return value) and the
printed lines. -/
def search_and_play (env : Env) (query : String) (limit : Nat)
    (use_mock auto no_play : Bool) (lines : List String) :
    Option Song × List String :=
  if pyStrip query = "" then (none, ["Empty query."])
  else
    match searchStep env query limit use_mock with
    | Except.error e => (none, ["Error while searching: " ++ e])
    | Except.ok songs =>
      if songs.isEmpty then (none, ["No results found."])
      else
        let c := choose_song songs auto lines
        match c.1 with
        | none => (none, resultsHeader songs ++ c.2 ++ ["No song selected."])
        | some idx =>
          let selected := songs.getD idx default
          if no_play then
            (some selected,
             resultsHeader songs ++ c.2 ++ selectedLines selected ++
               ["--no-play enabled, not launching mpv."])
          else
            (some selected,
             resultsHeader songs ++ c.2 ++ selectedLines selected ++
               playReport env selected.url)

/-- The parsed command line (`argparse` output): optional positional query,
`--mock`, `--limit` (parser-constrained to {1,3,5,7,10}), `--auto`,
`--no-play`. -/
structure Args where
  query : Option String
  mock : Bool
  limit : Nat
  auto : Bool
  no_play : Bool

/-- The prompt printed by `input(...)` when no (truthy) positional query is
given. -/
def queryPrompt : String := "Search for a song (or blank to quit): "

/-- `main(argv)` after argument parsing: picks the query (positional if
truthy, else one stripped interactive line; EOF or blank returns 0
immediately), runs `search_and_play` discarding its result, returns 0.
Returns the exit status and the printed lines. -/
def main (env : Env) (args : Args) (lines : List String) : Nat × List String :=
  if truthyOpt args.query then
    (0, (search_and_play env (args.query.getD "") args.limit args.mock args.auto
          args.no_play lines).2)
  else
    match lines with
    | [] => (0, [queryPrompt])
    | l :: rest =>
      let query := pyStrip l
      if query = "" then (0, [queryPrompt])
      else
        (0, queryPrompt ::
            (search_and_play env query args.limit args.mock args.auto args.no_play rest).2)

/-! Concrete environments used to instantiate the theorems below. -/

/-- Everything available, catalog returns `None`, playback succeeds. -/
def envOk : Env := ⟨true, fun _ => Except.ok none, true, fun _ => SubprocOutcome.success⟩

/-- `ytmusicapi` not importable. -/
def envNoYt : Env := ⟨false, fun _ => Except.ok none, true, fun _ => SubprocOutcome.success⟩

/-- `mpv` not on the PATH. -/
def envNoMpv : Env := ⟨true, fun _ => Except.ok none, false, fun _ => SubprocOutcome.success⟩

/-- Three catalog items: one without a `videoId`, one complete, one with a
falsy title and a malformed artist entry. -/
def ytItems : List YTItem :=
  [⟨some "NoId", some [ArtistEntry.obj (some "X")], none⟩,
   ⟨some "T", some [ArtistEntry.obj (some "A")], some "v1"⟩,
   ⟨some "", some [ArtistEntry.malformed], some "v2"⟩]

/-- Catalog returning `ytItems` for every query. -/
def envItems : Env :=
  ⟨true, fun _ => Except.ok (some ytItems), true, fun _ => SubprocOutcome.success⟩

/-- Parsed arguments with an empty-string positional query. -/
def argsEmptyQuery : Args := ⟨some "", true, 5, true, true⟩

/-! ## Helper lemmas -/

lemma search_with_mock_length (q : String) (L : Nat) :
    (search_with_mock q L).length = L := by
  simp [search_with_mock]

lemma search_with_mock_get? (q : String) (L i : Nat) (h : i < L) :
    (search_with_mock q L).get? i =
      some ⟨q ++ " (Mock " ++ toString (i + 1) ++ ")",
            "Mock Artist " ++ toString (i + 1),
            "https://www.youtube.com/watch?v=mock" ++ toString (i + 1)⟩ := by
  simp only [search_with_mock, List.get?_eq_getElem?, List.getElem?_map,
    List.getElem?_range h, Option.map_some']

lemma search_with_mock_urls (q : String) (L : Nat) :
    (search_with_mock q L).map Song.url =
      (List.range L).map (fun i => "https://www.youtube.com/watch?v=mock" ++ toString (i + 1)) := by
  simp only [search_with_mock, List.map_map]
  rfl

lemma pyInt_empty : pyInt "" = none := rfl

lemma chooseLoop_blank (n : Nat) (line : String) (rest : List String)
    (h : pyStrip line = "") : chooseLoop n (line :: rest) = (none, [numberPrompt]) := by
  simp [chooseLoop, h]

lemma chooseLoop_accept (n : Nat) (line : String) (rest : List String) (v : Int)
    (hp : pyInt (pyStrip line) = some v) (h1 : 1 ≤ v) (h2 : v ≤ (n : Int)) :
    chooseLoop n (line :: rest) = (some (v - 1).toNat, [numberPrompt]) := by
  have hb : ¬ pyStrip line = "" := by
    intro hh
    rw [hh, pyInt_empty] at hp
    cases hp
  have hcond : 0 ≤ v - 1 ∧ v - 1 < (n : Int) := by omega
  simp only [chooseLoop, hp, if_neg hb, if_pos hcond]

lemma chooseLoop_reject (n : Nat) (line : String) (rest : List String)
    (hb : pyStrip line ≠ "")
    (hrej : pyInt (pyStrip line) = none ∨
      ∃ v, pyInt (pyStrip line) = some v ∧ (v < 1 ∨ (n : Int) < v)) :
    (chooseLoop n (line :: rest)).1 = (chooseLoop n rest).1 := by
  rcases hrej with hp | ⟨v, hp, hout⟩
  · simp only [chooseLoop, hp, if_neg hb]
  · have hcond : ¬(0 ≤ v - 1 ∧ v - 1 < (n : Int)) := by omega
    simp only [chooseLoop, hp, if_neg hb, if_neg hcond]

lemma chooseLoop_some_lt (n : Nat) :
    ∀ (lines : List String) (i : Nat), (chooseLoop n lines).1 = some i → i < n := by
  intro lines
  induction lines with
  | nil => intro i hi; simp [chooseLoop] at hi
  | cons line rest ih =>
    intro i hi
    by_cases hb : pyStrip line = ""
    · simp [chooseLoop, hb] at hi
    · cases hp : pyInt (pyStrip line) with
      | none =>
        simp only [chooseLoop, hp, if_neg hb] at hi
        exact ih i hi
      | some v =>
        by_cases hcond : 0 ≤ v - 1 ∧ v - 1 < (n : Int)
        · simp only [chooseLoop, hp, if_neg hb, if_pos hcond, Option.some.injEq] at hi
          obtain ⟨h0, h1⟩ := hcond
          omega
        · simp only [chooseLoop, hp, if_neg hb, if_neg hcond] at hi
          exact ih i hi

lemma search_and_play_selected (env : Env) (q : String) (L : Nat) (um a np : Bool)
    (lines : List String) (songs : List Song) (idx : Nat)
    (hq : pyStrip q ≠ "") (hstep : searchStep env q L um = Except.ok songs)
    (hc : (choose_song songs a lines).1 = some idx) :
    search_and_play env q L um a np lines =
      (some (songs.getD idx default),
       resultsHeader songs ++ (choose_song songs a lines).2 ++
         selectedLines (songs.getD idx default) ++
         (if np then ["--no-play enabled, not launching mpv."]
          else playReport env (songs.getD idx default).url)) := by
  have hne : songs.isEmpty = false := by
    cases songs with
    | nil => simp [choose_song] at hc
    | cons x xs => rfl
  cases np <;> simp [search_and_play, hq, hstep, hne, hc]

lemma choose_song_some_lt (songs : List Song) (auto : Bool) (lines : List String)
    (i : Nat) (h : (choose_song songs auto lines).1 = some i) : i < songs.length := by
  cases he : songs.isEmpty with
  | true => simp [choose_song, he] at h
  | false =>
    have hlen : 0 < songs.length := by
      cases songs with
      | nil => cases he
      | cons a as => simp
    cases auto with
    | true =>
      simp [choose_song, he] at h
      omega
    | false =>
      simp only [choose_song, he, Bool.false_eq_true, if_false] at h
      exact chooseLoop_some_lt songs.length lines i h

/-! ## Claims -/

/-- C5: for every query `q` and every limit `L ∈ {1,3,5,7,10}`,
`search_with_mock q L` returns exactly `L` descriptors; the `i`-th
(1-based) has title `"{q} (Mock {i})"`, artist `"Mock Artist {i}"` and the
templated locator with `i` substituted; and all `L` locators are pairwise
distinct. -/
theorem mock_provider_exact (q : String) (L : Nat)
    (hL : L = 1 ∨ L = 3 ∨ L = 5 ∨ L = 7 ∨ L = 10) :
    (search_with_mock q L).length = L ∧
    (∀ i, i < L → (search_with_mock q L).get? i =
      some ⟨q ++ " (Mock " ++ toString (i + 1) ++ ")",
            "Mock Artist " ++ toString (i + 1),
            "https://www.youtube.com/watch?v=mock" ++ toString (i + 1)⟩) ∧
    ((search_with_mock q L).map Song.url).Nodup := by
  refine ⟨search_with_mock_length q L, fun i hi => search_with_mock_get? q L i hi, ?_⟩
  rw [search_with_mock_urls]
  rcases hL with h | h | h | h | h <;> subst h <;> decide

/-- Witness for C5 at `q = "abc"`, `L = 3`. -/
theorem mock_provider_exact_witness :
    (search_with_mock "abc" 3).length = 3 ∧
    (∀ i, i < 3 → (search_with_mock "abc" 3).get? i =
      some ⟨"abc" ++ " (Mock " ++ toString (i + 1) ++ ")",
            "Mock Artist " ++ toString (i + 1),
            "https://www.youtube.com/watch?v=mock" ++ toString (i + 1)⟩) ∧
    ((search_with_mock "abc" 3).map Song.url).Nodup :=
  mock_provider_exact "abc" 3 (Or.inr (Or.inl rfl))

/-- C8: on a non-empty result list with `auto = true`, `choose_song`
returns index 0, for every input, reading nothing and printing nothing. -/
theorem auto_select_first (songs : List Song) (lines : List String)
    (h : songs ≠ []) :
    choose_song songs true lines = (some 0, []) := by
  cases songs with
  | nil => exact absurd rfl h
  | cons a as => simp [choose_song]

/-- Witness for C8 on a one-song list. -/
theorem auto_select_first_witness :
    choose_song [⟨"t", "a", "u"⟩] true ["2"] = (some 0, []) :=
  auto_select_first [⟨"t", "a", "u"⟩] ["2"] (by decide)

/-- C10: on the empty result list, `choose_song` returns no selection with
no I/O, for every `auto` flag and every input: the selector itself guards
the empty case. -/
theorem empty_results_guard (auto : Bool) (lines : List String) :
    choose_song [] auto lines = (none, []) := by
  simp [choose_song]

/-- C7: on a query that strips to the empty string, `search_and_play`
prints exactly the empty-query message and returns no selection, for every
environment and provider flag — so no search call can have been made. -/
theorem empty_query_no_search (env : Env) (query : String) (limit : Nat)
    (use_mock auto no_play : Bool) (lines : List String)
    (h : pyStrip query = "") :
    search_and_play env query limit use_mock auto no_play lines =
      (none, ["Empty query."]) := by
  simp [search_and_play, h]

/-- Witness for C7 at a whitespace-only query. -/
theorem empty_query_no_search_witness :
    search_and_play envOk "  " 5 true true true [] = (none, ["Empty query."]) :=
  empty_query_no_search envOk "  " 5 true true true [] (by decide)

/-- C1: on a non-empty result list with `auto = false`, `choose_song`
returns `none` on end-of-input or a blank line, returns `v - 1` (zero-based)
on the first line whose stripped text parses as an integer `v` with
`1 ≤ v ≤ length`, and on any other line continues the loop on the remaining
input (rejection with a re-prompt). -/
theorem interactive_selection (songs : List Song) (h : songs ≠ []) :
    ((choose_song songs false []).1 = none) ∧
    (∀ line rest, pyStrip line = "" →
      (choose_song songs false (line :: rest)).1 = none) ∧
    (∀ line rest (v : Int), pyInt (pyStrip line) = some v → 1 ≤ v →
      v ≤ (songs.length : Int) →
      (choose_song songs false (line :: rest)).1 = some (v - 1).toNat) ∧
    (∀ line rest, pyStrip line ≠ "" →
      (pyInt (pyStrip line) = none ∨
        ∃ v, pyInt (pyStrip line) = some v ∧ (v < 1 ∨ (songs.length : Int) < v)) →
      (choose_song songs false (line :: rest)).1 =
        (choose_song songs false rest).1) := by
  have hne : songs.isEmpty = false := by
    cases songs with
    | nil => exact absurd rfl h
    | cons a as => rfl
  have hcs : ∀ lines, (choose_song songs false lines).1 =
      (chooseLoop songs.length lines).1 := by
    intro lines
    simp [choose_song, hne]
  refine ⟨?_, ?_, ?_, ?_⟩
  · rw [hcs]; rfl
  · intro line rest hl
    rw [hcs, chooseLoop_blank _ _ _ hl]
  · intro line rest v hp h1 h2
    rw [hcs, chooseLoop_accept _ _ _ _ hp h1 h2]
  · intro line rest hb hrej
    rw [hcs, hcs]
    exact chooseLoop_reject _ _ _ hb hrej

/-- Witness for C1 on the three mock results. -/
theorem interactive_selection_witness :
    ((choose_song (search_with_mock "q" 3) false []).1 = none) ∧
    (∀ line rest, pyStrip line = "" →
      (choose_song (search_with_mock "q" 3) false (line :: rest)).1 = none) ∧
    (∀ line rest (v : Int), pyInt (pyStrip line) = some v → 1 ≤ v →
      v ≤ ((search_with_mock "q" 3).length : Int) →
      (choose_song (search_with_mock "q" 3) false (line :: rest)).1 =
        some (v - 1).toNat) ∧
    (∀ line rest, pyStrip line ≠ "" →
      (pyInt (pyStrip line) = none ∨
        ∃ v, pyInt (pyStrip line) = some v ∧
          (v < 1 ∨ ((search_with_mock "q" 3).length : Int) < v)) →
      (choose_song (search_with_mock "q" 3) false (line :: rest)).1 =
        (choose_song (search_with_mock "q" 3) false rest).1) :=
  interactive_selection (search_with_mock "q" 3) (by decide)

/-- C9: every selection `choose_song` returns is a valid zero-based index
into the result list, and whatever song `search_and_play` returns is an
element of the list the search step produced — the index lookup is always
in bounds. -/
theorem selection_in_bounds :
    (∀ (songs : List Song) (auto : Bool) (lines : List String) (i : Nat),
      (choose_song songs auto lines).1 = some i → i < songs.length) ∧
    (∀ (env : Env) (query : String) (limit : Nat) (use_mock auto no_play : Bool)
        (lines : List String) (songs : List Song) (s : Song),
      searchStep env query limit use_mock = Except.ok songs →
      (search_and_play env query limit use_mock auto no_play lines).1 = some s →
      s ∈ songs) := by
  refine ⟨choose_song_some_lt, ?_⟩
  intro env q L um a np lines songs s hstep hres
  by_cases hq : pyStrip q = ""
  · simp [search_and_play, hq] at hres
  · cases he : songs.isEmpty with
    | true => simp [search_and_play, hq, hstep, he] at hres
    | false =>
      cases hc : (choose_song songs a lines).1 with
      | none => simp [search_and_play, hq, hstep, he, hc] at hres
      | some idx =>
        have hidx : idx < songs.length := choose_song_some_lt songs a lines idx hc
        have hsel : s = songs[idx]?.getD default := by
          cases np with
          | true =>
            simp [search_and_play, hq, hstep, he, hc] at hres
            exact hres.symm
          | false =>
            simp [search_and_play, hq, hstep, he, hc] at hres
            exact hres.symm
        rw [hsel, List.getElem?_eq_getElem hidx, Option.getD_some]
        exact List.getElem_mem hidx

/-- Witness for C9: selecting "2" from the three mock results stays in
bounds and yields a member of the searched list. -/
theorem selection_in_bounds_witness :
    1 < (search_with_mock "q" 3).length ∧
    (⟨"q (Mock 2)", "Mock Artist 2", "https://www.youtube.com/watch?v=mock2"⟩ : Song) ∈
      search_with_mock "q" 3 :=
  ⟨selection_in_bounds.1 (search_with_mock "q" 3) false ["2"] 1 (by decide),
   selection_in_bounds.2 envOk "q" 3 true false true ["2"] (search_with_mock "q" 3)
     ⟨"q (Mock 2)", "Mock Artist 2", "https://www.youtube.com/watch?v=mock2"⟩
     rfl (by decide)⟩

/-- C2: whatever list the external catalog call returns, the Live Provider
keeps at most `limit` items (the first `limit`, then filtered), each kept
descriptor is built from a kept item's fields — title with its placeholder,
first artist name with its placeholder, and the fixed URL template around
the item's `videoId` — and every item with a missing (or falsy) `videoId`
is dropped, so the result may be shorter than `limit`. -/
theorem live_provider_shape (env : Env) (query : String) (limit : Nat)
    (r : Option (List YTItem)) (songs : List Song)
    (hav : env.ytmusicAvailable = true)
    (hc : env.catalog query = Except.ok r)
    (hs : search_with_ytmusic env query limit = Except.ok songs) :
    songs = ((r.getD []).take limit).filterMap mkSong ∧
    songs.length ≤ limit ∧
    (∀ s ∈ songs, ∃ item ∈ (r.getD []).take limit, ∃ vid,
      item.videoId = some vid ∧ vid ≠ "" ∧
      s.title = strOr item.title "Unknown Title" ∧
      s.artist = firstArtistName (item.artists.getD []) ∧
      s.url = "https://www.youtube.com/watch?v=" ++ vid) ∧
    (∀ item : YTItem, (item.videoId = none ∨ item.videoId = some "") →
      mkSong item = none) := by
  have hsongs : songs = ((r.getD []).take limit).filterMap mkSong := by
    rw [search_with_ytmusic, hav, if_pos rfl, hc] at hs
    exact (Except.ok.injEq _ _ ▸ hs.symm : _)
  refine ⟨hsongs, ?_, ?_, ?_⟩
  · rw [hsongs]
    calc (((r.getD []).take limit).filterMap mkSong).length
        ≤ ((r.getD []).take limit).length := List.length_filterMap_le _ _
      _ ≤ limit := by
          rw [List.length_take]
          exact min_le_left _ _
  · intro s hsmem
    rw [hsongs] at hsmem
    obtain ⟨item, hit, hmk⟩ := List.mem_filterMap.mp hsmem
    refine ⟨item, hit, ?_⟩
    cases hvid : item.videoId with
    | none => simp [mkSong, hvid] at hmk
    | some vid =>
      by_cases hv : vid = ""
      · simp [mkSong, hvid, hv] at hmk
      · simp only [mkSong, hvid, if_neg hv] at hmk
        obtain rfl := Option.some.inj hmk
        exact ⟨vid, rfl, hv, rfl, rfl, rfl⟩
  · intro item hbad
    rcases hbad with hv | hv <;> simp [mkSong, hv]

/-- Witness for C2: `envItems` holds one item without a `videoId`, so with
`limit = 2` only one descriptor comes back. -/
theorem live_provider_shape_witness :
    ([(⟨"T", "A", "https://www.youtube.com/watch?v=v1"⟩ : Song)].length < 2) ∧
    (([(⟨"T", "A", "https://www.youtube.com/watch?v=v1"⟩ : Song)] =
        (((some ytItems).getD []).take 2).filterMap mkSong) ∧
      ([(⟨"T", "A", "https://www.youtube.com/watch?v=v1"⟩ : Song)].length ≤ 2) ∧
      (∀ s ∈ [(⟨"T", "A", "https://www.youtube.com/watch?v=v1"⟩ : Song)],
        ∃ item ∈ ((some ytItems).getD []).take 2, ∃ vid,
        item.videoId = some vid ∧ vid ≠ "" ∧
        s.title = strOr item.title "Unknown Title" ∧
        s.artist = firstArtistName (item.artists.getD []) ∧
        s.url = "https://www.youtube.com/watch?v=" ++ vid) ∧
      (∀ item : YTItem, (item.videoId = none ∨ item.videoId = some "") →
        mkSong item = none)) :=
  ⟨by decide,
   live_provider_shape envItems "q" 2 (some ytItems)
     [⟨"T", "A", "https://www.youtube.com/watch?v=v1"⟩] rfl rfl rfl⟩

/-- C4: a missing `ytmusicapi` makes `search_with_ytmusic` fail with the
fixed message whatever the catalog would return (the error is raised before
any external call); any error from the live search step is caught by
`search_and_play` and reported as `"Error while searching: {details}"` with
no selection; in particular the missing-capability error surfaces through
that same report. -/
theorem search_error_reported (env : Env) (query : String) (limit : Nat)
    (auto no_play : Bool) (lines : List String) :
    (env.ytmusicAvailable = false →
      ∀ c, search_with_ytmusic { env with catalog := c } query limit =
        Except.error "ytmusicapi not installed. Run: pip install ytmusicapi") ∧
    (∀ e, pyStrip query ≠ "" →
      search_with_ytmusic env query limit = Except.error e →
      search_and_play env query limit false auto no_play lines =
        (none, ["Error while searching: " ++ e])) ∧
    (pyStrip query ≠ "" → env.ytmusicAvailable = false →
      search_and_play env query limit false auto no_play lines =
        (none,
         ["Error while searching: ytmusicapi not installed. Run: pip install ytmusicapi"])) := by
  refine ⟨?_, ?_, ?_⟩
  · intro hav c
    simp [search_with_ytmusic, hav]
  · intro e hq herr
    simp [search_and_play, searchStep, hq, herr]
  · intro hq hav
    have herr : search_with_ytmusic env query limit =
        Except.error "ytmusicapi not installed. Run: pip install ytmusicapi" := by
      simp [search_with_ytmusic, hav]
    simp [search_and_play, searchStep, hq, herr]

/-- Witness for C4 in an environment without `ytmusicapi`. -/
theorem search_error_reported_witness :
    search_and_play envNoYt "hello" 5 false false false [] =
      (none,
       ["Error while searching: ytmusicapi not installed. Run: pip install ytmusicapi"]) :=
  (search_error_reported envNoYt "hello" 5 false false []).2.2 (by decide) rfl

/-- C6: with `--no-play` the player environment is never consulted (the
whole run is unchanged under any player environment) and the selection is
returned; the selection returned never depends on the playback phase; and
once a song is selected, a playback failure — mpv missing, or any other
exception — is reported as `"Failed to play: {details}"` while the selected
song is still returned. -/
theorem playback_isolated (q : String) (L : Nat) (um a : Bool) (lines : List String) :
    (∀ (yta : Bool) (cat : String → Except String (Option (List YTItem)))
        (m₁ m₂ : Bool) (p₁ p₂ : String → SubprocOutcome),
      search_and_play ⟨yta, cat, m₁, p₁⟩ q L um a true lines =
        search_and_play ⟨yta, cat, m₂, p₂⟩ q L um a true lines) ∧
    (∀ (env : Env) (np : Bool),
      (search_and_play env q L um a np lines).1 =
        (search_and_play env q L um a true lines).1) ∧
    (∀ (env : Env) (songs : List Song) (idx : Nat),
      searchStep env q L um = Except.ok songs →
      pyStrip q ≠ "" →
      (choose_song songs a lines).1 = some idx →
      ((search_and_play env q L um a true lines).1 = some (songs.getD idx default)) ∧
      (env.mpvFound = false →
        (search_and_play env q L um a false lines).1 = some (songs.getD idx default) ∧
        "Failed to play: mpv not found. Please install it to play songs." ∈
          (search_and_play env q L um a false lines).2) ∧
      (∀ msg, env.mpvFound = true →
        env.playOutcome (songs.getD idx default).url = SubprocOutcome.otherError msg →
        (search_and_play env q L um a false lines).1 = some (songs.getD idx default) ∧
        "Failed to play: " ++ msg ∈ (search_and_play env q L um a false lines).2)) := by
  refine ⟨fun yta cat m₁ m₂ p₁ p₂ => rfl, ?_, ?_⟩
  · intro env np
    by_cases hq : pyStrip q = ""
    · simp [search_and_play, hq]
    · cases hs : searchStep env q L um with
      | error e => simp [search_and_play, hq, hs]
      | ok songs =>
        cases he : songs.isEmpty with
        | true => simp [search_and_play, hq, hs, he]
        | false =>
          cases hc : (choose_song songs a lines).1 with
          | none => simp [search_and_play, hq, hs, he, hc]
          | some idx => cases np <;> simp [search_and_play, hq, hs, he, hc]
  · intro env songs idx hstep hq hc
    have h1 := search_and_play_selected env q L um a true lines songs idx hq hstep hc
    have h0 := search_and_play_selected env q L um a false lines songs idx hq hstep hc
    refine ⟨by rw [h1], ?_, ?_⟩
    · intro hm
      have hpr : playReport env (songs.getD idx default).url =
          ["Failed to play: mpv not found. Please install it to play songs."] := by
        unfold playReport play_with_mpv
        rw [hm]
        rfl
      constructor
      · rw [h0]
      · rw [h0]
        simp only [Bool.false_eq_true, if_false, hpr]
        exact List.mem_append_right _ (List.mem_cons_self _ _)
    · intro msg hm hout
      have hpr : playReport env (songs.getD idx default).url =
          ["Failed to play: " ++ msg] := by
        unfold playReport play_with_mpv
        rw [hm, hout]
        rfl
      constructor
      · rw [h0]
      · rw [h0]
        simp only [Bool.false_eq_true, if_false, hpr]
        exact List.mem_append_right _ (List.mem_cons_self _ _)

/-- Witness for C6: mpv missing while "2" is chosen from three mock
results. -/
theorem playback_isolated_witness :
    (search_and_play envNoMpv "q" 3 true false false ["2"]).1 =
      some ((search_with_mock "q" 3).getD 1 default) ∧
    "Failed to play: mpv not found. Please install it to play songs." ∈
      (search_and_play envNoMpv "q" 3 true false false ["2"]).2 :=
  ((playback_isolated "q" 3 true false ["2"]).2.2 envNoMpv (search_with_mock "q" 3) 1
    rfl (by decide) (by decide)).2.1 rfl

/-- C3 (amended): `main` always exits 0; with a NON-EMPTY positional query
the session runs on it (whatever the search, selection or playback
outcome); with the positional query absent OR EQUAL TO the empty string,
`main` prompts interactively, and a blank or end-of-input answer exits 0
immediately with no session (the output is the prompt alone, independent of
the environment). -/
theorem main_exit_zero (env : Env) (args : Args) (lines : List String) :
    ((main env args lines).1 = 0) ∧
    (∀ q, args.query = some q → q ≠ "" →
      main env args lines =
        (0, (search_and_play env q args.limit args.mock args.auto args.no_play
              lines).2)) ∧
    (truthyOpt args.query = false →
      (lines = [] → main env args lines = (0, [queryPrompt])) ∧
      (∀ l rest, lines = l :: rest → pyStrip l = "" →
        main env args lines = (0, [queryPrompt])) ∧
      (∀ l rest, lines = l :: rest → pyStrip l ≠ "" →
        main env args lines =
          (0, queryPrompt ::
            (search_and_play env (pyStrip l) args.limit args.mock args.auto
              args.no_play rest).2))) := by
  refine ⟨?_, ?_, ?_⟩
  · cases ht : truthyOpt args.query with
    | true => simp [main, ht]
    | false =>
      cases lines with
      | nil => simp [main, ht]
      | cons l rest =>
        by_cases hl : pyStrip l = ""
        · simp [main, ht, hl]
        · simp [main, ht, hl]
  · intro q hq hne
    have ht2 : truthyOpt (some q) = true := by
      simp [truthyOpt, hne]
    simp [main, hq, ht2]
  · intro ht
    refine ⟨?_, ?_, ?_⟩
    · intro hl
      subst hl
      simp [main, ht]
    · intro l rest hl he
      subst hl
      simp [main, ht, he]
    · intro l rest hl he
      subst hl
      simp [main, ht, he]

/-- Counterexample to C3 as stated: with the empty-string positional query
(an argument vector the parser accepts), `main` does NOT run a session — it
prompts interactively, and on end-of-input prints nothing but the prompt;
the "Empty query." report that a session on that query would print is
absent. -/
theorem main_empty_positional_counterexample :
    main envOk argsEmptyQuery [] = (0, [queryPrompt]) ∧
    search_and_play envOk "" 5 true true true [] = (none, ["Empty query."]) ∧
    "Empty query." ∉ (main envOk argsEmptyQuery []).2 :=
  ⟨rfl, rfl, by decide⟩

/-- Witness for the amended C3 at a non-empty positional query. -/
theorem main_exit_zero_witness :
    main envOk ⟨some "hi", true, 3, true, true⟩ ["x"] =
      (0, (search_and_play envOk "hi" 3 true true true ["x"]).2) :=
  (main_exit_zero envOk ⟨some "hi", true, 3, true, true⟩ ["x"]).2.1 "hi" rfl
    (by decide)

end TermTunes
